import Mathlib

/-!
# Verification of the SSD1306 system-monitor navigation model

Shallow embedding of `src/ip_display.py` (class `SystemMonitor`): the
navigation state machine (screen index, selected command index, idle
auto-advance), the button callbacks, the render-loop tick control flow,
and the display initialization fallback. Timestamps (`time.time()`)
are modelled as integers; Python's `%` on a positive modulus agrees
with `Int.emod`.
-/

set_option autoImplicit false

/-- The mutable scalar fields of the Python `SystemMonitor` object that the
navigation logic reads or writes (`__init__`, lines 26-52 of
`src/ip_display.py`). GPIO pin numbers, the device handle and the fonts are
hardware resources never touched by the navigation logic and are omitted. -/
structure SystemMonitor where
  current_screen : Int
  total_screens : Int
  last_update : Int
  update_interval : Int
  auto_advance : Bool
  auto_advance_interval : Int
  last_button_press : Int
  commands : List (String × String)
  selected_command : Int
deriving DecidableEq, Repr

/-- `SystemMonitor.__init__`: screen 0, four screens, auto-advance on with a
10 second interval, the two-entry command registry, command index 0;
`last_button_press = time.time()` is the construction time `now`. -/
def SystemMonitor.init (now : Int) : SystemMonitor :=
  { current_screen := 0
    total_screens := 4
    last_update := 0
    update_interval := 5
    auto_advance := true
    auto_advance_interval := 10
    last_button_press := now
    commands := [("Restart", "sudo reboot"), ("Shutdown", "sudo shutdown -h now")]
    selected_command := 0 }

/-- `SystemMonitor.prev_screen` (lines 114-118): decrement the screen index
modulo `total_screens` and record the button-press time. -/
def SystemMonitor.prev_screen (m : SystemMonitor) (now : Int) : SystemMonitor :=
  { m with
    current_screen := (m.current_screen - 1).emod m.total_screens
    last_button_press := now }

/-- `SystemMonitor.next_screen` (lines 120-124): increment the screen index
modulo `total_screens` and record the button-press time. -/
def SystemMonitor.next_screen (m : SystemMonitor) (now : Int) : SystemMonitor :=
  { m with
    current_screen := (m.current_screen + 1).emod m.total_screens
    last_button_press := now }

/-- `SystemMonitor.prev_command` (lines 79-84): only on the command screen
(index 3), decrement the selected command modulo the registry length and
record the button-press time; otherwise do nothing. -/
def SystemMonitor.prev_command (m : SystemMonitor) (now : Int) : SystemMonitor :=
  if m.current_screen = 3 then
    { m with
      selected_command := (m.selected_command - 1).emod (m.commands.length : Int)
      last_button_press := now }
  else m

/-- `SystemMonitor.next_command` (lines 86-91): only on the command screen
(index 3), increment the selected command modulo the registry length and
record the button-press time; otherwise do nothing. -/
def SystemMonitor.next_command (m : SystemMonitor) (now : Int) : SystemMonitor :=
  if m.current_screen = 3 then
    { m with
      selected_command := (m.selected_command + 1).emod (m.commands.length : Int)
      last_button_press := now }
  else m

/-- `SystemMonitor.execute_command` (lines 93-112): only on the command
screen (index 3), look up `commands[selected_command]` and hand it out for
execution. No field of the object is assigned anywhere in the method, so the
state component of the result is always the input state. -/
def SystemMonitor.execute_command (m : SystemMonitor) :
    SystemMonitor × Option (String × String) :=
  if m.current_screen = 3 then
    (m, m.commands.get? m.selected_command.toNat)
  else
    (m, none)

/-- The idle auto-advance step at the top of the render loop
(`SystemMonitor.run`, lines 308-314): if auto-advance is enabled, the
command screen is not showing, and the idle time strictly exceeds
`auto_advance_interval`, advance one screen and reset the idle clock. -/
def SystemMonitor.maybe_auto_advance (m : SystemMonitor) (now : Int) : SystemMonitor :=
  if m.auto_advance = true ∧ m.current_screen ≠ 3 ∧
      now - m.last_button_press > m.auto_advance_interval then
    { m with
      current_screen := (m.current_screen + 1).emod m.total_screens
      last_button_press := now }
  else m

/-- One state mutation of the program: the four button callbacks registered
in `setup_buttons` (lines 69-73), the center button (execute), and a render
loop tick performing the auto-advance check. Each carries the `time.time()`
value observed when it runs. -/
inductive Op where
  | left (now : Int)
  | right (now : Int)
  | up (now : Int)
  | down (now : Int)
  | center
  | tick (now : Int)
deriving DecidableEq, Repr

/-- Apply one mutation to the state. -/
def applyOp (m : SystemMonitor) : Op → SystemMonitor
  | .left now => m.prev_screen now
  | .right now => m.next_screen now
  | .up now => m.prev_command now
  | .down now => m.next_command now
  | .center => m.execute_command.fst
  | .tick now => m.maybe_auto_advance now

/-- Apply a sequence of mutations, in order. -/
def runOps (m : SystemMonitor) : List Op → SystemMonitor
  | [] => m
  | op :: rest => runOps (applyOp m op) rest

/-- One navigation-only button press: `true` is the Right button
(`next_screen`), `false` the Left button (`prev_screen`), paired with the
time it fires. -/
def navStep (m : SystemMonitor) : Bool × Int → SystemMonitor
  | (true, now) => m.next_screen now
  | (false, now) => m.prev_screen now

/-- Apply a sequence of Left/Right presses, in order. -/
def navRun (m : SystemMonitor) : List (Bool × Int) → SystemMonitor
  | [] => m
  | p :: rest => navRun (navStep m p) rest

/-- What happens to the frame of a render-loop tick: the display transfer
succeeds, the display transfer raises an exception carrying message `e`, or
a `KeyboardInterrupt` arrives during the tick. -/
inductive TickEvent where
  | frameOk
  | frameError (e : String)
  | keyboardInterrupt
deriving DecidableEq, Repr

/-- Status of the render loop after a tick. -/
inductive LoopStatus where
  | running
  | exitedCleanly
  | crashed (e : String)
deriving DecidableEq, Repr

/-- One iteration of the `while True` render loop (lines 306-338): run the
auto-advance check, then draw and submit the frame. The surrounding `try`
has a single `except KeyboardInterrupt` clause (line 334), so an interrupt
exits cleanly (clear display, GPIO cleanup) while any other exception raised
by the frame submission propagates out of `run`, terminating the loop. -/
def runTick (m : SystemMonitor) (now : Int) (ev : TickEvent) :
    SystemMonitor × LoopStatus :=
  let m1 := m.maybe_auto_advance now
  match ev with
  | .frameOk => (m1, .running)
  | .frameError e => (m1, .crashed e)
  | .keyboardInterrupt => (m1, .exitedCleanly)

/-- Outcome of the display-initialization prologue of `run`. -/
inductive RunStart where
  | enteredLoop (addr : Nat)
  | initFailed
deriving DecidableEq, Repr

/-- The display initialization at the top of `run` (lines 276-288):
`ssd1306` is tried once at bus address `0x3C`; on failure it is tried once
at `0x3D`; if that also fails the errors are printed and `run` returns
before reaching the render loop. The booleans say whether initialization at
each address succeeds. -/
def run_init (ok3C ok3D : Bool) : RunStart :=
  if ok3C then .enteredLoop 0x3C
  else if ok3D then .enteredLoop 0x3D
  else .initFailed

/-- The range invariant of the navigation state: the screen index is one of
0-3, the selected command indexes into the registry, and the immutable
configuration fields keep their constructed values. -/
def NavInv (m : SystemMonitor) : Prop :=
  0 ≤ m.current_screen ∧ m.current_screen < 4 ∧
  0 ≤ m.selected_command ∧ m.selected_command < (m.commands.length : Int) ∧
  m.total_screens = 4 ∧ m.commands.length = 2

instance (m : SystemMonitor) : Decidable (NavInv m) := by
  unfold NavInv; infer_instance

/-- The reference scenario state of the testable properties: a freshly
constructed monitor navigated to the command screen (index 3), command
index still 0. -/
def commandScreenState : SystemMonitor :=
  { SystemMonitor.init 0 with current_screen := 3 }

/-! ## Preservation lemmas -/

theorem navInv_init (t : Int) : NavInv (SystemMonitor.init t) := by
  unfold NavInv SystemMonitor.init
  norm_num

theorem applyOp_navInv {m : SystemMonitor} (h : NavInv m) (op : Op) :
    NavInv (applyOp m op) := by
  obtain ⟨h1, h2, h3, h4, h5, h6⟩ := h
  cases op with
  | left now =>
      simp only [applyOp, SystemMonitor.prev_screen]
      unfold NavInv
      refine ⟨?_, ?_, h3, h4, h5, h6⟩
      · exact Int.emod_nonneg _ (by rw [h5]; norm_num)
      · rw [h5]; exact Int.emod_lt_of_pos _ (by norm_num)
  | right now =>
      simp only [applyOp, SystemMonitor.next_screen]
      unfold NavInv
      refine ⟨?_, ?_, h3, h4, h5, h6⟩
      · exact Int.emod_nonneg _ (by rw [h5]; norm_num)
      · rw [h5]; exact Int.emod_lt_of_pos _ (by norm_num)
  | up now =>
      simp only [applyOp, SystemMonitor.prev_command]
      by_cases hs : m.current_screen = 3
      · rw [if_pos hs]
        refine ⟨h1, h2, ?_, ?_, h5, h6⟩
        · exact Int.emod_nonneg _ (by rw [h6]; norm_num)
        · exact Int.emod_lt_of_pos _ (by rw [h6]; norm_num)
      · rw [if_neg hs]
        exact ⟨h1, h2, h3, h4, h5, h6⟩
  | down now =>
      simp only [applyOp, SystemMonitor.next_command]
      by_cases hs : m.current_screen = 3
      · rw [if_pos hs]
        refine ⟨h1, h2, ?_, ?_, h5, h6⟩
        · exact Int.emod_nonneg _ (by rw [h6]; norm_num)
        · exact Int.emod_lt_of_pos _ (by rw [h6]; norm_num)
      · rw [if_neg hs]
        exact ⟨h1, h2, h3, h4, h5, h6⟩
  | center =>
      simp only [applyOp, SystemMonitor.execute_command]
      by_cases hs : m.current_screen = 3
      · rw [if_pos hs]
        exact ⟨h1, h2, h3, h4, h5, h6⟩
      · rw [if_neg hs]
        exact ⟨h1, h2, h3, h4, h5, h6⟩
  | tick now =>
      simp only [applyOp, SystemMonitor.maybe_auto_advance]
      by_cases hc : m.auto_advance = true ∧ m.current_screen ≠ 3 ∧
          now - m.last_button_press > m.auto_advance_interval
      · rw [if_pos hc]
        refine ⟨?_, ?_, h3, h4, h5, h6⟩
        · exact Int.emod_nonneg _ (by rw [h5]; norm_num)
        · rw [h5]; exact Int.emod_lt_of_pos _ (by norm_num)
      · rw [if_neg hc]
        exact ⟨h1, h2, h3, h4, h5, h6⟩

theorem runOps_navInv {m : SystemMonitor} (h : NavInv m) (ops : List Op) :
    NavInv (runOps m ops) := by
  induction ops generalizing m with
  | nil => exact h
  | cons op rest ih => exact ih (applyOp_navInv h op)

theorem applyOp_auto_advance (m : SystemMonitor) (op : Op) :
    (applyOp m op).auto_advance = m.auto_advance := by
  cases op <;>
    simp only [applyOp, SystemMonitor.prev_screen, SystemMonitor.next_screen,
      SystemMonitor.prev_command, SystemMonitor.next_command,
      SystemMonitor.execute_command, SystemMonitor.maybe_auto_advance] <;>
    split <;> rfl

theorem runOps_auto_advance (m : SystemMonitor) (ops : List Op) :
    (runOps m ops).auto_advance = m.auto_advance := by
  induction ops generalizing m with
  | nil => rfl
  | cons op rest ih =>
      rw [runOps, ih, applyOp_auto_advance]

theorem navRun_eq_runOps (m : SystemMonitor) (l : List (Bool × Int)) :
    navRun m l =
      runOps m (l.map fun p => if p.1 then Op.right p.2 else Op.left p.2) := by
  induction l generalizing m with
  | nil => rfl
  | cons p rest ih =>
      cases p with
      | mk b t => cases b <;> simp [navRun, navStep, runOps, applyOp, ih]

/-! ## Claim theorems -/

/-- C1: starting from the constructed state (screen 0, command 0), any
interleaved sequence of the button callbacks and render-loop auto-advance
ticks leaves the screen index inside 0..3 and the selected command index
inside `[0, len(commands))`. -/
theorem spec_c1_reachable_in_range (t0 : Int) (ops : List Op) :
    0 ≤ (runOps (SystemMonitor.init t0) ops).current_screen ∧
    (runOps (SystemMonitor.init t0) ops).current_screen < 4 ∧
    0 ≤ (runOps (SystemMonitor.init t0) ops).selected_command ∧
    (runOps (SystemMonitor.init t0) ops).selected_command <
      ((runOps (SystemMonitor.init t0) ops).commands.length : Int) := by
  obtain ⟨h1, h2, h3, h4, -, -⟩ := runOps_navInv (navInv_init t0) ops
  exact ⟨h1, h2, h3, h4⟩

/-- C2: any sequence of Left/Right presses keeps the screen index in the
4-screen range; advancing from screen 3 wraps to 0 and retreating from
screen 0 wraps to 3; from the start state three advances visit screens
1, 2, 3 in order. -/
theorem spec_c2_panel_wrap (t0 t1 t2 t3 : Int) (presses : List (Bool × Int))
    (m : SystemMonitor) (now : Int) (hm : m.total_screens = 4) :
    (0 ≤ (navRun (SystemMonitor.init t0) presses).current_screen ∧
      (navRun (SystemMonitor.init t0) presses).current_screen < 4) ∧
    (m.current_screen = 3 → (m.next_screen now).current_screen = 0) ∧
    (m.current_screen = 0 → (m.prev_screen now).current_screen = 3) ∧
    ((SystemMonitor.init t0).next_screen t1).current_screen = 1 ∧
    (((SystemMonitor.init t0).next_screen t1).next_screen t2).current_screen = 2 ∧
    ((((SystemMonitor.init t0).next_screen t1).next_screen t2).next_screen
      t3).current_screen = 3 := by
  refine ⟨?_, ?_, ?_, rfl, rfl, rfl⟩
  · rw [navRun_eq_runOps]
    obtain ⟨h1, h2, -⟩ := runOps_navInv (navInv_init t0) _
    exact ⟨h1, h2⟩
  · intro h
    simp only [SystemMonitor.next_screen, h, hm]
    decide
  · intro h
    simp only [SystemMonitor.prev_screen, h, hm]
    decide

/-- C2 witness: the wrap steps at concrete states. -/
theorem spec_c2_panel_wrap_witness :
    (commandScreenState.next_screen 5).current_screen = 0 ∧
    ((SystemMonitor.init 0).prev_screen 5).current_screen = 3 :=
  ⟨(spec_c2_panel_wrap 0 1 2 3 [] commandScreenState 5 (by decide)).2.1 (by decide),
   (spec_c2_panel_wrap 0 1 2 3 [] (SystemMonitor.init 0) 5 (by decide)).2.2.1 (by decide)⟩

/-- C3: when the command screen is not showing, the Up/Down callbacks change
nothing at all; on the command screen they step the selected command index
by one modulo the registry length and stamp the press time; from command
index 0 three Down presses select 1, then 0, then 1 (registry length 2). -/
theorem spec_c3_command_select (m : SystemMonitor) (now : Int) :
    (m.current_screen ≠ 3 → m.next_command now = m ∧ m.prev_command now = m) ∧
    (m.current_screen = 3 →
      (m.next_command now).selected_command =
        (m.selected_command + 1).emod (m.commands.length : Int) ∧
      (m.next_command now).last_button_press = now ∧
      (m.prev_command now).selected_command =
        (m.selected_command - 1).emod (m.commands.length : Int) ∧
      (m.prev_command now).last_button_press = now) ∧
    (∀ u1 u2 u3 : Int,
      (commandScreenState.next_command u1).selected_command = 1 ∧
      ((commandScreenState.next_command u1).next_command u2).selected_command = 0 ∧
      (((commandScreenState.next_command u1).next_command u2).next_command
        u3).selected_command = 1) := by
  refine ⟨?_, ?_, ?_⟩
  · intro h
    constructor
    · unfold SystemMonitor.next_command
      rw [if_neg h]
    · unfold SystemMonitor.prev_command
      rw [if_neg h]
  · intro h
    unfold SystemMonitor.next_command SystemMonitor.prev_command
    rw [if_pos h, if_pos h]
    exact ⟨rfl, rfl, rfl, rfl⟩
  · intro u1 u2 u3
    refine ⟨rfl, ?_, ?_⟩ <;>
      simp [SystemMonitor.next_command, commandScreenState, SystemMonitor.init,
        Int.emod_emod_of_dvd] <;> decide

/-- C3 witness: a Down press off the command screen changes nothing; a Down
press on the command screen selects entry 1. -/
theorem spec_c3_command_select_witness :
    (SystemMonitor.init 0).next_command 5 = SystemMonitor.init 0 ∧
    (commandScreenState.next_command 5).selected_command = 1 :=
  ⟨((spec_c3_command_select (SystemMonitor.init 0) 5).1 (by decide)).1,
   ((spec_c3_command_select commandScreenState 5).2.1 (by decide)).1⟩

/-- C4: the render-loop auto-advance step advances the screen by exactly one
(modulo the screen count) and resets the idle clock to `now` exactly when
auto-advance is enabled, the command screen is not showing, and the idle
time strictly exceeds the threshold; in every other case the state is left
untouched, so a tick advances at most one screen. -/
theorem spec_c4_auto_advance_iff (m : SystemMonitor) (now : Int) :
    (m.auto_advance = true ∧ m.current_screen ≠ 3 ∧
        now - m.last_button_press > m.auto_advance_interval →
      m.maybe_auto_advance now =
        { m with
          current_screen := (m.current_screen + 1).emod m.total_screens
          last_button_press := now }) ∧
    (¬(m.auto_advance = true ∧ m.current_screen ≠ 3 ∧
        now - m.last_button_press > m.auto_advance_interval) →
      m.maybe_auto_advance now = m) := by
  constructor
  · intro h
    unfold SystemMonitor.maybe_auto_advance
    rw [if_pos h]
  · intro h
    unfold SystemMonitor.maybe_auto_advance
    rw [if_neg h]

/-- C4 witness: a tick 11 seconds after construction advances to screen 1;
a tick 5 seconds after construction changes nothing. -/
theorem spec_c4_auto_advance_iff_witness :
    (SystemMonitor.init 0).maybe_auto_advance 11 =
      { SystemMonitor.init 0 with current_screen := 1, last_button_press := 11 } ∧
    (SystemMonitor.init 0).maybe_auto_advance 5 = SystemMonitor.init 0 :=
  ⟨(spec_c4_auto_advance_iff (SystemMonitor.init 0) 11).1 (by decide),
   (spec_c4_auto_advance_iff (SystemMonitor.init 0) 5).2 (by decide)⟩

/-- C5: an auto-advance tick on the command screen (index 3) never changes
the state, no matter how large the idle time is. -/
theorem spec_c5_commands_exempt (m : SystemMonitor) (now : Int)
    (h : m.current_screen = 3) : m.maybe_auto_advance now = m := by
  unfold SystemMonitor.maybe_auto_advance
  rw [if_neg]
  rintro ⟨-, h2, -⟩
  exact h2 h

/-- C5 witness: on the command screen, a tick after a million idle seconds
changes nothing. -/
theorem spec_c5_commands_exempt_witness :
    commandScreenState.current_screen = 3 ∧
    commandScreenState.maybe_auto_advance 1000000 = commandScreenState :=
  ⟨by decide, spec_c5_commands_exempt commandScreenState 1000000 (by decide)⟩

/-- C6 counterexample: on the command screen, `execute_command` returns the
state completely unchanged; in particular `last_button_press` keeps its old
value 0, so the claimed update of the interaction timestamp does not
happen. -/
theorem spec_c6_counterexample :
    commandScreenState.execute_command.fst = commandScreenState ∧
    commandScreenState.execute_command.fst.last_button_press = 0 :=
  ⟨rfl, rfl⟩

/-- C6 (amended): `execute_command` does nothing off the command screen;
on the command screen it hands out `commands[selected_command]` while
leaving every state field, including `last_button_press`, unchanged. -/
theorem spec_c6_execute_select (m : SystemMonitor) :
    (m.current_screen ≠ 3 → m.execute_command = (m, none)) ∧
    (m.current_screen = 3 →
      m.execute_command = (m, m.commands.get? m.selected_command.toNat)) := by
  constructor
  · intro h
    unfold SystemMonitor.execute_command
    rw [if_neg h]
  · intro h
    unfold SystemMonitor.execute_command
    rw [if_pos h]

/-- C6 witness: off the command screen nothing is selected; on the command
screen the first registry entry is selected and the state is unchanged. -/
theorem spec_c6_execute_select_witness :
    (SystemMonitor.init 0).execute_command = (SystemMonitor.init 0, none) ∧
    commandScreenState.execute_command =
      (commandScreenState, some ("Restart", "sudo reboot")) :=
  ⟨(spec_c6_execute_select (SystemMonitor.init 0)).1 (by decide),
   (spec_c6_execute_select commandScreenState).2 (by decide)⟩

/-- C7 counterexample: a failed frame submission on a tick does not leave
the loop running — the exception is not caught (only `KeyboardInterrupt`
is), so the render loop terminates. -/
theorem spec_c7_counterexample :
    (runTick (SystemMonitor.init 0) 1 (TickEvent.frameError "EIO")).snd ≠
      LoopStatus.running ∧
    (runTick (SystemMonitor.init 0) 1 (TickEvent.frameError "EIO")).snd =
      LoopStatus.crashed "EIO" := by
  constructor
  · decide
  · rfl

/-- C7 (amended): the render loop has no per-tick handler for frame
submission failures: a tick whose submission raises terminates the loop
with that exception, a successful tick keeps the loop running, and only
`KeyboardInterrupt` produces the clean exit path. -/
theorem spec_c7_frame_error_uncaught (m : SystemMonitor) (now : Int) (e : String) :
    (runTick m now (TickEvent.frameError e)).snd = LoopStatus.crashed e ∧
    (runTick m now TickEvent.frameOk).snd = LoopStatus.running ∧
    (runTick m now TickEvent.keyboardInterrupt).snd = LoopStatus.exitedCleanly :=
  ⟨rfl, rfl, rfl⟩

/-- C8: display initialization tries address 0x3C, then 0x3D as the single
fallback; if both fail `run` returns before the render loop, and if either
succeeds the render loop is entered with the first working address. -/
theorem spec_c8_display_init_fallback :
    run_init false false = RunStart.initFailed ∧
    (∀ b : Bool, run_init true b = RunStart.enteredLoop 0x3C) ∧
    run_init false true = RunStart.enteredLoop 0x3D := by
  refine ⟨rfl, ?_, rfl⟩
  intro b
  rfl

/-- C9: Left/Right navigation rewrites only the screen index and the
press timestamp: the selected command, auto-advance flag and interval, the
registry, and the remaining configuration fields are all untouched, so a
command selection survives leaving and re-entering the command screen. -/
theorem spec_c9_nav_frame (m : SystemMonitor) (now u2 : Int) :
    ((m.next_screen now).selected_command = m.selected_command ∧
     (m.next_screen now).auto_advance = m.auto_advance ∧
     (m.next_screen now).auto_advance_interval = m.auto_advance_interval ∧
     (m.next_screen now).total_screens = m.total_screens ∧
     (m.next_screen now).commands = m.commands ∧
     (m.next_screen now).last_update = m.last_update ∧
     (m.next_screen now).update_interval = m.update_interval) ∧
    ((m.prev_screen now).selected_command = m.selected_command ∧
     (m.prev_screen now).auto_advance = m.auto_advance ∧
     (m.prev_screen now).auto_advance_interval = m.auto_advance_interval ∧
     (m.prev_screen now).total_screens = m.total_screens ∧
     (m.prev_screen now).commands = m.commands ∧
     (m.prev_screen now).last_update = m.last_update ∧
     (m.prev_screen now).update_interval = m.update_interval) ∧
    ((m.next_screen now).prev_screen u2).selected_command = m.selected_command :=
  ⟨⟨rfl, rfl, rfl, rfl, rfl, rfl, rfl⟩,
   ⟨rfl, rfl, rfl, rfl, rfl, rfl, rfl⟩, rfl⟩

/-- C10: auto-advance is enabled at construction, every operation of the
program preserves the flag, and hence it is enabled in every reachable
state; no operation disables it. -/
theorem spec_c10_auto_advance_always_on (t0 : Int) (ops : List Op) :
    (SystemMonitor.init t0).auto_advance = true ∧
    (runOps (SystemMonitor.init t0) ops).auto_advance = true ∧
    ∀ (m : SystemMonitor) (op : Op),
      (applyOp m op).auto_advance = m.auto_advance := by
  refine ⟨?_, ?_, applyOp_auto_advance⟩
  · rfl
  · rw [runOps_auto_advance]
    rfl
